import Mathlib

/-!
Verification of the upgrade/restart orchestration subsystem of the ginx
repository: listener acquisition (GracefulUpgrader.Listen), the process
spawner (GracefulUpgrader.Reload), the signal-driven orchestrator
(GracefulUpgrader.WaitForSignal), and the shutdown-callback coordination
(Engine.GracefulServe, Engine.RegisterOnShutdown, Engine.GracefulRun).

The Go code is embedded shallowly: each function becomes a Lean function
over explicit inputs standing for the OS-level outcomes the code branches
on (environment contents, syscall success or failure, which signal
arrived, whether the HTTP server shutdown finished within its context
deadline).  Side effects are recorded as an ordered trace of events so
that ordering claims (callbacks before shutdown, deadlines, logging) can
be stated and checked.
-/

namespace Ginx

/-- Kind of the net.Listener held by a GracefulUpgrader.  The source stores
a net.Listener interface value; Reload type-asserts it to a TCP listener
with g.ln.(*net.TCPListener), so only the TCP case is distinguished by the
code and every other kind takes the same (panicking) path. -/
inductive ListenerKind where
  | tcp
  | unix
  | other
  deriving DecidableEq

/-- Result of GracefulUpgrader.Listen: the listener was inherited from
descriptor slot 3, the call failed, or a fresh listener was bound. -/
inductive ListenResult where
  | inherited
  | acquireError (msg : String)
  | freshBound
  deriving DecidableEq

/-- Outcome of Listen together with whether a fresh bind (a net.Listen
call) was attempted during it. -/
structure ListenOutcome where
  result : ListenResult
  bindAttempted : Bool
  deriving DecidableEq

/-- Embedding of Go os.Getenv: the value of the first binding of the key
in the process environment, and the empty string when the variable is
absent. -/
def getenv (env : List (String × String)) (key : String) : String :=
  match env.lookup key with
  | some v => v
  | none => ""

/-- Shallow embedding of GracefulUpgrader.Listen (upgrader.go).  The code
tests os.Getenv("GRACEFUL_RESTART") == "true"; when the test holds it
wraps descriptor slot 3 with net.FileListener (outcome abstracted as
wrapOk) and returns the wrapped listener or an inheritance error, never
reaching the fresh net.Listen call; otherwise it binds fresh (outcome
abstracted as bindOk). -/
def gracefulListen (env : List (String × String)) (wrapOk : Bool) (bindOk : Bool) :
    ListenOutcome :=
  if getenv env "GRACEFUL_RESTART" = "true" then
    if wrapOk then { result := .inherited, bindAttempted := false }
    else { result := .acquireError "failed to inherit listener", bindAttempted := false }
  else
    if bindOk then { result := .freshBound, bindAttempted := true }
    else { result := .acquireError "failed to create listener", bindAttempted := true }

/-- Sources of the descriptor slots passed to os.StartProcess, in slot
order: slots 0, 1, 2 are the standard streams and slot 3 is the duplicate
of the listener descriptor obtained from File(). -/
inductive FdSource where
  | stdin
  | stdout
  | stderr
  | listenerDup
  deriving DecidableEq

/-- Parameters handed to os.StartProcess by Reload: the child environment
(Go KEY=VALUE strings) and the ordered descriptor list. -/
structure SpawnParams where
  childEnv : List String
  files : List FdSource
  deriving DecidableEq

/-- Result of GracefulUpgrader.Reload.  The panicked case models a Go
runtime panic (the unchecked type assertion on the listener), which is not
a returned error. -/
inductive ReloadResult where
  | ok (params : SpawnParams)
  | spawnError (msg : String)
  | panicked (msg : String)
  deriving DecidableEq

/-- Whether a ReloadResult is a returned SpawnError. -/
def ReloadResult.isSpawnError : ReloadResult → Bool
  | .spawnError _ => true
  | _ => false

/-- Inputs that GracefulUpgrader.Reload branches on: the current process
environment (os.Environ), whether os.Executable succeeds, the dynamic kind
of the stored listener, whether File() on the TCP listener succeeds, and
whether os.StartProcess succeeds. -/
structure ReloadEnv where
  osEnviron : List String
  executableOk : Bool
  lnKind : ListenerKind
  fileOk : Bool
  startOk : Bool
  deriving DecidableEq

/-- Shallow embedding of GracefulUpgrader.Reload (upgrader.go).  In source
order: os.Executable (failure is a returned error), the type assertion
g.ln.(*net.TCPListener) (a non-TCP listener panics, since the assertion
has no ok form), File() on the TCP listener (failure is a returned error),
the child environment os.Environ() with GRACEFUL_RESTART=true appended,
and os.StartProcess with descriptor slots stdin, stdout, stderr,
listenerFile (failure is a returned error). -/
def reload (re : ReloadEnv) : ReloadResult :=
  if !re.executableOk then .spawnError "failed to get executable path"
  else
    match re.lnKind with
    | .tcp =>
      if !re.fileOk then .spawnError "failed to get listener file"
      else if !re.startOk then .spawnError "failed to start new process"
      else .ok { childEnv := re.osEnviron ++ ["GRACEFUL_RESTART=true"],
                 files := [.stdin, .stdout, .stderr, .listenerDup] }
    | _ => .panicked "interface conversion to TCPListener failed"

/-- Observable events of a run, in program order.  shutdownRequested
records a server.Shutdown call with the seconds bound of its
context.WithTimeout; the Go HTTP server closes its listener inside that
call.  callbackRun records the invocation of one registered shutdown
callback, identified by its registration index. -/
inductive TraceEv where
  | reloadCalled
  | callbackRun (i : Nat)
  | shutdownRequested (deadlineSeconds : Nat)
  | logInfo (msg : String)
  | logError (msg : String)
  deriving DecidableEq

/-- Whether a trace event is a callback invocation. -/
def TraceEv.isCallbackRun : TraceEv → Bool
  | .callbackRun _ => true
  | _ => false

/-- Whether a trace event is a server shutdown request. -/
def TraceEv.isShutdownReq : TraceEv → Bool
  | .shutdownRequested _ => true
  | _ => false

/-- Callback invocation events of a trace, in order. -/
def cbEvents (t : List TraceEv) : List TraceEv :=
  t.filter TraceEv.isCallbackRun

/-- Prefix of a trace strictly before the first server shutdown request. -/
def beforeShutdown (t : List TraceEv) : List TraceEv :=
  t.takeWhile (fun ev => !ev.isShutdownReq)

/-- One delivered OS signal together with the outcomes of the calls its
handler makes: a SIGHUP carries the inputs of the Reload it triggers and
the result of the subsequent server.Shutdown (none means Shutdown returned
nil, some e means it returned error e, as it does when the 30 second
context expires first); SIGTERM and SIGINT carry only the Shutdown
result.  signal.Notify registers exactly these three signals. -/
inductive SigEvent where
  | hup (re : ReloadEnv) (shutdownErr : Option String)
  | term (shutdownErr : Option String)
  | int (shutdownErr : Option String)
  deriving DecidableEq

/-- Result of a run of WaitForSignal, GracefulServe or GracefulRun:
returned nil, returned an error, panicked, or is still blocked waiting on
the signal channel after the supplied signals were consumed. -/
inductive RunResult where
  | ok
  | errored (msg : String)
  | panicked (msg : String)
  | waiting
  deriving DecidableEq

/-- Shallow embedding of GracefulUpgrader.WaitForSignal (upgrader.go) over
a finite list of delivered signals.  On SIGHUP: run Reload; a panic
propagates; a returned error is logged and the loop continues with the
next signal; on success the server is shut down under a 30 second deadline
and the function returns the Shutdown error or nil.  On SIGTERM or SIGINT:
shut down under a 30 second deadline and return the Shutdown error or
nil. -/
def waitForSignal : List SigEvent → RunResult × List TraceEv
  | [] => (.waiting, [])
  | .hup re sErr :: rest =>
    match reload re with
    | .panicked m => (.panicked m, [.reloadCalled])
    | .spawnError _ =>
      ((waitForSignal rest).1,
        .reloadCalled :: .logError "Failed to reload" :: (waitForSignal rest).2)
    | .ok _ =>
      match sErr with
      | some e =>
        (.errored e,
          [.reloadCalled, .shutdownRequested 30, .logError "Failed to shutdown"])
      | none =>
        (.ok,
          [.reloadCalled, .shutdownRequested 30, .logInfo "Graceful reload completed"])
  | .term sErr :: _ =>
    match sErr with
    | some e => (.errored e, [.shutdownRequested 30, .logError "Failed to shutdown"])
    | none => (.ok, [.shutdownRequested 30, .logInfo "Graceful shutdown completed"])
  | .int sErr :: _ =>
    match sErr with
    | some e => (.errored e, [.shutdownRequested 30, .logError "Failed to shutdown"])
    | none => (.ok, [.shutdownRequested 30, .logInfo "Graceful shutdown completed"])

/-- The part of Engine (engine.go) these claims depend on: the ordered
shutdown callback registry.  Callbacks are zero-argument actions; each is
identified here by an opaque number and its invocation is recorded as a
callbackRun trace event. -/
structure Engine where
  shutdownCallbacks : List Nat
  deriving DecidableEq

/-- Shallow embedding of Engine.RegisterOnShutdown: append to the
registry. -/
def registerOnShutdown (e : Engine) (cb : Nat) : Engine :=
  { shutdownCallbacks := e.shutdownCallbacks ++ [cb] }

/-- Engine whose registry was built by a sequence of RegisterOnShutdown
calls, in the given order, starting from the fresh Engine of New (empty
registry). -/
def engineOf (cbs : List Nat) : Engine :=
  cbs.foldl registerOnShutdown { shutdownCallbacks := [] }

/-- Shallow embedding of Engine.executeShutdownCallbacks: invoke each
registered callback, in registration order. -/
def executeShutdownCallbacks (e : Engine) : List TraceEv :=
  e.shutdownCallbacks.map TraceEv.callbackRun

/-- Which branch of the select in GracefulServe fires: the serving
goroutine reported a fatal server error, or a quit signal (SIGINT,
SIGTERM or SIGQUIT) arrived, carrying the subsequent Shutdown result
(none means nil, some m means error m). -/
inductive ServeOutcome where
  | serverError (msg : String)
  | quitSignal (shutdownErr : Option String)
  deriving DecidableEq

/-- Shallow embedding of Engine.GracefulServe (engine.go).  On a quit
signal it logs, builds a 30 second timeout context, runs every registered
shutdown callback in order, then calls server.Shutdown with that context;
a Shutdown error is logged and returned wrapped, otherwise it logs success
and returns nil.  A server error from the serving goroutine is returned
wrapped. -/
def gracefulServe (e : Engine) (outcome : ServeOutcome) : RunResult × List TraceEv :=
  match outcome with
  | .serverError m => (.errored ("HTTP server error: " ++ m), [])
  | .quitSignal sErr =>
    match sErr with
    | some m =>
      (.errored ("server shutdown error: " ++ m),
        .logInfo "Received shutdown signal, starting graceful shutdown..." ::
          executeShutdownCallbacks e ++
            [.shutdownRequested 30, .logError "Server shutdown error"])
    | none =>
      (.ok,
        .logInfo "Received shutdown signal, starting graceful shutdown..." ::
          executeShutdownCallbacks e ++
            [.shutdownRequested 30, .logInfo "Server has been shutdown successfully"])

/-- Shallow embedding of Engine.GracefulRun (engine.go): create a
GracefulUpgrader, Listen (returning a wrapped error on failure), start the
serving goroutine, and hand control to WaitForSignal.  The Engine argument
carries the shutdown callback registry; GracefulRun itself never reads
it. -/
def gracefulRun (e : Engine) (env : List (String × String)) (wrapOk bindOk : Bool)
    (evs : List SigEvent) : RunResult × List TraceEv :=
  match (gracefulListen env wrapOk bindOk).result with
  | .acquireError m => (.errored ("failed to create listener: " ++ m), [])
  | _ => waitForSignal evs

/-! ## Helper lemmas -/

lemma engineOf_callbacks_aux (cbs : List Nat) (init : Engine) :
    (cbs.foldl registerOnShutdown init).shutdownCallbacks
      = init.shutdownCallbacks ++ cbs := by
  induction cbs generalizing init with
  | nil => simp
  | cons c cs ih => simp [List.foldl_cons, ih, registerOnShutdown]

lemma engineOf_callbacks (cbs : List Nat) :
    (engineOf cbs).shutdownCallbacks = cbs := by
  simp [engineOf, engineOf_callbacks_aux]

lemma waitForSignal_no_callbacks (evs : List SigEvent) :
    cbEvents (waitForSignal evs).2 = [] := by
  induction evs with
  | nil => rfl
  | cons ev rest ih =>
    cases ev with
    | hup re sErr =>
      cases hr : reload re with
      | panicked m => simp [waitForSignal, hr, cbEvents, TraceEv.isCallbackRun]
      | spawnError m =>
        simp only [waitForSignal, hr]
        simp only [cbEvents, List.filter_cons] at ih ⊢
        simpa [TraceEv.isCallbackRun] using ih
      | ok p =>
        cases sErr <;> simp [waitForSignal, hr, cbEvents, TraceEv.isCallbackRun]
    | term sErr =>
      cases sErr <;> simp [waitForSignal, cbEvents, TraceEv.isCallbackRun]
    | int sErr =>
      cases sErr <;> simp [waitForSignal, cbEvents, TraceEv.isCallbackRun]

lemma takeWhile_cb_until_shutdown (cbs : List Nat) (d : Nat) (tail : List TraceEv) :
    (cbs.map TraceEv.callbackRun ++ TraceEv.shutdownRequested d :: tail).takeWhile
        (fun ev => !ev.isShutdownReq) = cbs.map TraceEv.callbackRun := by
  induction cbs with
  | nil => simp [List.takeWhile_cons, TraceEv.isShutdownReq]
  | cons c cs ih => simp [List.takeWhile_cons, TraceEv.isShutdownReq, ih]

lemma filter_cb_map (cbs : List Nat) :
    (cbs.map TraceEv.callbackRun).filter TraceEv.isCallbackRun
      = cbs.map TraceEv.callbackRun := by
  induction cbs with
  | nil => rfl
  | cons c cs ih => simp [List.filter_cons, TraceEv.isCallbackRun, ih]

lemma gracefulServe_quit_trace (e : Engine) (sErr : Option String) :
    cbEvents (beforeShutdown (gracefulServe e (ServeOutcome.quitSignal sErr)).2)
        = e.shutdownCallbacks.map TraceEv.callbackRun ∧
    cbEvents (gracefulServe e (ServeOutcome.quitSignal sErr)).2
        = e.shutdownCallbacks.map TraceEv.callbackRun := by
  cases sErr <;>
    simp [gracefulServe, executeShutdownCallbacks, beforeShutdown, cbEvents,
      List.takeWhile_cons, TraceEv.isShutdownReq, TraceEv.isCallbackRun,
      takeWhile_cb_until_shutdown, filter_cb_map, List.filter_append, List.filter_cons]

lemma waitForSignal_deadline (evs : List SigEvent) (d : Nat)
    (h : TraceEv.shutdownRequested d ∈ (waitForSignal evs).2) : d = 30 := by
  induction evs with
  | nil => simp [waitForSignal] at h
  | cons ev rest ih =>
    cases ev with
    | hup re sErr =>
      cases hr : reload re with
      | panicked m => simp [waitForSignal, hr] at h
      | spawnError m =>
        simp only [waitForSignal, hr, List.mem_cons] at h
        rcases h with h | h | h
        · exact absurd h (by simp)
        · exact absurd h (by simp)
        · exact ih h
      | ok p =>
        cases sErr <;> simp [waitForSignal, hr] at h <;> exact h
    | term sErr =>
      cases sErr <;> simp [waitForSignal] at h <;> exact h
    | int sErr =>
      cases sErr <;> simp [waitForSignal] at h <;> exact h

lemma gracefulServe_deadline (e : Engine) (outcome : ServeOutcome) (d : Nat)
    (h : TraceEv.shutdownRequested d ∈ (gracefulServe e outcome).2) : d = 30 := by
  cases outcome with
  | serverError m => simp [gracefulServe] at h
  | quitSignal sErr =>
    cases sErr <;> simp [gracefulServe, executeShutdownCallbacks] at h <;> exact h

/-! ## Claim theorems -/

/-- C1 counterexample: a valid terminate sequence of GracefulRun (fresh
bind succeeds, one SIGTERM with a clean Shutdown) on an Engine holding one
callback registered via RegisterOnShutdown returns nil, yet the trace
contains no callback invocation at all — the registered callback did not
run exactly once before shutdown, it never ran. -/
theorem c1_counterexample :
    (engineOf [0]).shutdownCallbacks = [0] ∧
    (gracefulRun (engineOf [0]) [] true true [SigEvent.term none]).1 = RunResult.ok ∧
    cbEvents (gracefulRun (engineOf [0]) [] true true [SigEvent.term none]).2 = [] :=
  ⟨rfl, rfl, rfl⟩

/-- C1 (amended): callbacks registered via RegisterOnShutdown are never
invoked on any GracefulRun/WaitForSignal sequence (reload or terminate);
the exactly-once, registration-order, strictly-before-shutdown drain
instead happens on the GracefulServe quit path, whose trace contains each
registered callback exactly once, in order, entirely before the server
shutdown request. -/
theorem c1_callback_drain_location (cbs : List Nat) (env : List (String × String))
    (wrapOk bindOk : Bool) (evs : List SigEvent) (sErr : Option String) :
    cbEvents (gracefulRun (engineOf cbs) env wrapOk bindOk evs).2 = [] ∧
    cbEvents (beforeShutdown (gracefulServe (engineOf cbs) (ServeOutcome.quitSignal sErr)).2)
        = cbs.map TraceEv.callbackRun ∧
    cbEvents (gracefulServe (engineOf cbs) (ServeOutcome.quitSignal sErr)).2
        = cbs.map TraceEv.callbackRun := by
  have hserve := gracefulServe_quit_trace (engineOf cbs) sErr
  rw [engineOf_callbacks] at hserve
  refine ⟨?_, hserve.1, hserve.2⟩
  have hw := waitForSignal_no_callbacks evs
  cases h : (gracefulListen env wrapOk bindOk).result <;>
    simp only [gracefulRun, h] <;>
    first
      | exact hw
      | rfl

/-- Reload input used for claim C2: os.Executable succeeds and the stored
listener is a non-stream, non-TCP listener; descriptor duplication and
process start would both succeed if reached. -/
def c2Input : ReloadEnv :=
  { osEnviron := [], executableOk := true, lnKind := .other,
    fileOk := true, startOk := true }

/-- C2 counterexample: with an active non-stream (non-TCP) listener,
Reload does not return a SpawnError — the unchecked type assertion
g.ln.(*net.TCPListener) makes it panic instead. -/
theorem c2_counterexample :
    reload c2Input = ReloadResult.panicked "interface conversion to TCPListener failed" ∧
    (reload c2Input).isSpawnError = false :=
  ⟨rfl, rfl⟩

/-- C2 (amended): whenever os.Executable succeeds and the active listener
is not a TCP listener, Reload panics on the type assertion rather than
returning a SpawnError; no unsupported-transport SpawnError exists in the
code. -/
theorem c2_non_tcp_panics (re : ReloadEnv) (h1 : re.executableOk = true)
    (h2 : re.lnKind ≠ ListenerKind.tcp) :
    reload re = ReloadResult.panicked "interface conversion to TCPListener failed" := by
  cases h2k : re.lnKind with
  | tcp => exact absurd h2k h2
  | unix => simp [reload, h1, h2k]
  | other => simp [reload, h1, h2k]

/-- Witness for C2 (amended) at the concrete input c2Input. -/
theorem c2_non_tcp_panics_witness :
    c2Input.executableOk = true ∧ c2Input.lnKind ≠ ListenerKind.tcp ∧
    reload c2Input = ReloadResult.panicked "interface conversion to TCPListener failed" :=
  ⟨rfl, by decide, c2_non_tcp_panics c2Input rfl (by decide)⟩

/-- C3 counterexample: an environment in which the Reload Marker variable
GRACEFUL_RESTART is present but bound to "1" takes the fresh-bind path,
not the inheritance path — presence alone is not the condition the code
tests. -/
theorem c3_counterexample :
    (List.lookup "GRACEFUL_RESTART" [("GRACEFUL_RESTART", "1")]).isSome = true ∧
    (gracefulListen [("GRACEFUL_RESTART", "1")] true true).result
        = ListenResult.freshBound ∧
    (gracefulListen [("GRACEFUL_RESTART", "1")] true true).bindAttempted = true :=
  ⟨rfl, rfl, rfl⟩

/-- C3 (amended): when the Reload Marker variable is present with value
exactly "true" at Listen time, Listen takes the inheritance path (wraps
descriptor slot 3) and never performs a fresh bind; the marker holding the
value "true", not mere presence, is the sole condition. -/
theorem c3_marker_true_inherits (env : List (String × String)) (wrapOk bindOk : Bool)
    (h : getenv env "GRACEFUL_RESTART" = "true") :
    (gracefulListen env wrapOk bindOk).bindAttempted = false ∧
    ((gracefulListen env wrapOk bindOk).result = ListenResult.inherited ∨
      (gracefulListen env wrapOk bindOk).result
        = ListenResult.acquireError "failed to inherit listener") := by
  cases wrapOk <;> simp [gracefulListen, h]

/-- Witness for C3 (amended) with the marker bound to "true". -/
theorem c3_marker_true_inherits_witness :
    getenv [("GRACEFUL_RESTART", "true")] "GRACEFUL_RESTART" = "true" ∧
    ((gracefulListen [("GRACEFUL_RESTART", "true")] true true).bindAttempted = false ∧
      ((gracefulListen [("GRACEFUL_RESTART", "true")] true true).result
          = ListenResult.inherited ∨
        (gracefulListen [("GRACEFUL_RESTART", "true")] true true).result
          = ListenResult.acquireError "failed to inherit listener")) :=
  ⟨rfl, c3_marker_true_inherits [("GRACEFUL_RESTART", "true")] true true rfl⟩

/-- C4: with the Reload Marker signalling inheritance, a failure to wrap
descriptor slot 3 into a listener makes Listen return the AcquireError
for inheritance and no fresh bind is attempted — the fresh-bind branch is
unreachable once inheritance was signaled, whatever a fresh bind would
have done. -/
theorem c4_inherit_failure_no_fallback (env : List (String × String)) (bindOk : Bool)
    (h : getenv env "GRACEFUL_RESTART" = "true") :
    gracefulListen env false bindOk
      = { result := ListenResult.acquireError "failed to inherit listener",
          bindAttempted := false } := by
  simp [gracefulListen, h]

/-- Witness for C4 with the marker bound to "true" and a failing wrap. -/
theorem c4_inherit_failure_no_fallback_witness :
    getenv [("GRACEFUL_RESTART", "true")] "GRACEFUL_RESTART" = "true" ∧
    gracefulListen [("GRACEFUL_RESTART", "true")] false true
      = { result := ListenResult.acquireError "failed to inherit listener",
          bindAttempted := false } :=
  ⟨rfl, c4_inherit_failure_no_fallback [("GRACEFUL_RESTART", "true")] true rfl⟩

/-- C5: every successful Reload starts the child with environment equal to
the parent environment plus GRACEFUL_RESTART=true appended, and with
descriptor slots 0, 1, 2, 3 bound to stdin, stdout, stderr and the
duplicated listener descriptor, in exactly that order. -/
theorem c5_spawn_parameters (re : ReloadEnv) (p : SpawnParams)
    (h : reload re = ReloadResult.ok p) :
    p.childEnv = re.osEnviron ++ ["GRACEFUL_RESTART=true"] ∧
    p.files = [FdSource.stdin, FdSource.stdout, FdSource.stderr, FdSource.listenerDup] := by
  obtain ⟨pc, pf⟩ := p
  obtain ⟨env1, eOk, k, fOk, sOk⟩ := re
  cases eOk <;> cases k <;> cases fOk <;> cases sOk <;> simp_all [reload]

/-- Reload input used for the C5 witness: a TCP listener and all
syscalls succeeding. -/
def c5Input : ReloadEnv :=
  { osEnviron := ["PATH=/bin"], executableOk := true, lnKind := .tcp,
    fileOk := true, startOk := true }

/-- Spawn parameters produced by Reload on c5Input. -/
def c5Params : SpawnParams :=
  { childEnv := ["PATH=/bin", "GRACEFUL_RESTART=true"],
    files := [.stdin, .stdout, .stderr, .listenerDup] }

/-- Witness for C5 at the concrete input c5Input. -/
theorem c5_spawn_parameters_witness :
    reload c5Input = ReloadResult.ok c5Params ∧
    (c5Params.childEnv = c5Input.osEnviron ++ ["GRACEFUL_RESTART=true"] ∧
      c5Params.files
        = [FdSource.stdin, FdSource.stdout, FdSource.stderr, FdSource.listenerDup]) :=
  ⟨rfl, c5_spawn_parameters c5Input c5Params rfl⟩

/-- C6: when the Reload triggered by a SIGHUP returns an error, the
orchestrator logs the failure and continues the loop in the Running state:
the overall outcome and remaining trace are exactly those of processing
the subsequent signals, with no shutdown requested and no retry for this
signal. -/
theorem c6_failed_reload_remains_running (re : ReloadEnv) (m : String)
    (sErr : Option String) (rest : List SigEvent)
    (h : reload re = ReloadResult.spawnError m) :
    waitForSignal (SigEvent.hup re sErr :: rest)
      = ((waitForSignal rest).1,
          TraceEv.reloadCalled :: TraceEv.logError "Failed to reload"
            :: (waitForSignal rest).2) := by
  simp [waitForSignal, h]

/-- Reload input used for the C6 witness: os.Executable fails, so Reload
returns a SpawnError. -/
def c6Input : ReloadEnv :=
  { osEnviron := [], executableOk := false, lnKind := .tcp,
    fileOk := true, startOk := true }

/-- Witness for C6 at the concrete input c6Input with no further signals. -/
theorem c6_failed_reload_remains_running_witness :
    reload c6Input = ReloadResult.spawnError "failed to get executable path" ∧
    waitForSignal [SigEvent.hup c6Input none]
      = ((waitForSignal []).1,
          TraceEv.reloadCalled :: TraceEv.logError "Failed to reload"
            :: (waitForSignal []).2) :=
  ⟨rfl, c6_failed_reload_remains_running c6Input "failed to get executable path" none [] rfl⟩

/-- C7: whenever server.Shutdown in GracefulServe returns an error (as it
does when the drain exceeds the 30 second deadline, with the context
error "context deadline exceeded"), the run returns that error wrapped as
a server shutdown error, and every registered callback has nonetheless
already executed, in registration order, strictly before the Shutdown
request appears in the trace. -/
theorem c7_timeout_still_runs_callbacks (e : Engine) (m : String) :
    (gracefulServe e (ServeOutcome.quitSignal (some m))).1
        = RunResult.errored ("server shutdown error: " ++ m) ∧
    cbEvents (beforeShutdown (gracefulServe e (ServeOutcome.quitSignal (some m))).2)
        = e.shutdownCallbacks.map TraceEv.callbackRun :=
  ⟨rfl, (gracefulServe_quit_trace e (some m)).1⟩

/-- C8: every server shutdown request recorded in any GracefulServe or
WaitForSignal run carries the fixed 30 second deadline; when the drain
returns an error (as on deadline expiry) the terminate path of
WaitForSignal returns that error immediately, consuming no further
signals — no retry — and GracefulServe likewise returns the wrapped
error to its caller, so the process proceeds toward exit. -/
theorem c8_drain_bounded (e : Engine) (outcome : ServeOutcome) (evs : List SigEvent) :
    (∀ d, TraceEv.shutdownRequested d ∈ (gracefulServe e outcome).2 → d = 30) ∧
    (∀ d, TraceEv.shutdownRequested d ∈ (waitForSignal evs).2 → d = 30) ∧
    (∀ m rest, waitForSignal (SigEvent.term (some m) :: rest)
        = (RunResult.errored m,
            [TraceEv.shutdownRequested 30, TraceEv.logError "Failed to shutdown"])) ∧
    (∀ m, (gracefulServe e (ServeOutcome.quitSignal (some m))).1
        = RunResult.errored ("server shutdown error: " ++ m)) :=
  ⟨fun d h => gracefulServe_deadline e outcome d h,
   fun d h => waitForSignal_deadline evs d h,
   fun _ _ => rfl,
   fun _ => rfl⟩

/-- Witness for C8: the terminate path at a concrete deadline-expiry
error, extracted from the theorem at concrete inputs. -/
theorem c8_drain_bounded_witness :
    waitForSignal [SigEvent.term (some "context deadline exceeded")]
      = (RunResult.errored "context deadline exceeded",
          [TraceEv.shutdownRequested 30, TraceEv.logError "Failed to shutdown"]) :=
  (c8_drain_bounded { shutdownCallbacks := [] } (ServeOutcome.serverError "") []).2.2.1
    "context deadline exceeded" []

end Ginx
